import Mathlib

/-!
Shallow embedding of the glide-be-sdk-go repository, covering the error
taxonomy (`src/glide/errors.go`), the resilient transport
(`src/glide/http_client.go`), input validation (`src/glide/validation.go`),
the magic-auth credential flow (`src/glide/magic_auth.go`) and the session
authenticator of the `ogi` package (`src/unnamed/part_008`, `part_009`).
Go machine integers are modelled as `Int`/`Nat`; Go `(T, error)` multiple
returns as products of `Option`s or `Except`; network traffic as explicit
oracles passed in, together with a count of network calls performed.
-/

/-! ### Error codes, src/glide/errors.go lines 8-90 -/

def ErrCodeBadRequest : String := "BAD_REQUEST"

def ErrCodeValidationError : String := "VALIDATION_ERROR"

def ErrCodeInvalidParameters : String := "INVALID_PARAMETERS"

def ErrCodeInvalidPhoneNumber : String := "INVALID_PHONE_NUMBER"

def ErrCodeInvalidMCCMNC : String := "INVALID_MCC_MNC"

def ErrCodeSessionNotFound : String := "SESSION_NOT_FOUND"

def ErrCodeUnprocessableEntity : String := "UNPROCESSABLE_ENTITY"

def ErrCodeInvalidCredentialFormat : String := "INVALID_CREDENTIAL_FORMAT"

def ErrCodeRateLimitExceeded : String := "RATE_LIMIT_EXCEEDED"

def ErrCodeTooManyRequests : String := "TOO_MANY_REQUESTS"

def ErrCodeQuotaExceeded : String := "QUOTA_EXCEEDED"

def ErrCodeInternalServerError : String := "INTERNAL_SERVER_ERROR"

def ErrCodeBadGateway : String := "BAD_GATEWAY"

def ErrCodeUpstreamError : String := "UPSTREAM_ERROR"

def ErrCodeServiceUnavailable : String := "SERVICE_UNAVAILABLE"

def ErrCodeDownstreamServiceError : String := "DOWNSTREAM_SERVICE_ERROR"

def ErrCodeProviderError : String := "PROVIDER_ERROR"

def ErrCodeCircuitBreakerOpen : String := "CIRCUIT_BREAKER_OPEN"

def ErrCodeMaintenanceMode : String := "MAINTENANCE_MODE"

def ErrCodeGatewayTimeout : String := "GATEWAY_TIMEOUT"

def ErrCodeRequestTimeout : String := "REQUEST_TIMEOUT"

def ErrCodeUpstreamTimeout : String := "UPSTREAM_TIMEOUT"

def ErrCodeDeadlineExceeded : String := "DEADLINE_EXCEEDED"

/-- Model of `glide.Error` (src/glide/errors.go lines 93-99).  `Details` is a
`map[string]interface{}` in Go; only its keys and the identity of its values
matter to the claims, so it is modelled as an association list of strings. -/
structure GError where
  code : String
  message : String
  status : Int := 0
  requestId : String := ""
  details : List (String × String) := []
deriving Repr, DecidableEq

/-- Model of `NewError` (src/glide/errors.go lines 115-120): status stays at
the Go zero value 0. -/
def NewError (code message : String) : GError :=
  { code := code, message := message }

/-- Model of `NewErrorWithStatus` (src/glide/errors.go lines 123-129). -/
def NewErrorWithStatus (code message : String) (status : Int) : GError :=
  { code := code, message := message, status := status }

/-- Model of `(*Error).IsRetryable` (src/glide/errors.go lines 132-152): a
switch over fourteen code strings returning true, defaulting to
`500 <= status < 600`. -/
def GError.IsRetryable (e : GError) : Bool :=
  if e.code = ErrCodeRateLimitExceeded ∨ e.code = ErrCodeTooManyRequests ∨
     e.code = ErrCodeQuotaExceeded ∨ e.code = ErrCodeServiceUnavailable ∨
     e.code = ErrCodeDownstreamServiceError ∨ e.code = ErrCodeProviderError ∨
     e.code = ErrCodeCircuitBreakerOpen ∨ e.code = ErrCodeMaintenanceMode ∨
     e.code = ErrCodeGatewayTimeout ∨ e.code = ErrCodeRequestTimeout ∨
     e.code = ErrCodeUpstreamTimeout ∨ e.code = ErrCodeDeadlineExceeded ∨
     e.code = ErrCodeBadGateway ∨ e.code = ErrCodeUpstreamError then
    true
  else
    decide (500 ≤ e.status ∧ e.status < 600)

/-- The fourteen retryable code strings of the `IsRetryable` switch, as a
set to compare the switch against. -/
def retryableCodes : List String :=
  [ErrCodeRateLimitExceeded, ErrCodeTooManyRequests, ErrCodeQuotaExceeded,
   ErrCodeServiceUnavailable, ErrCodeDownstreamServiceError, ErrCodeProviderError,
   ErrCodeCircuitBreakerOpen, ErrCodeMaintenanceMode, ErrCodeGatewayTimeout,
   ErrCodeRequestTimeout, ErrCodeUpstreamTimeout, ErrCodeDeadlineExceeded,
   ErrCodeBadGateway, ErrCodeUpstreamError]

/-- Model of `sanitizeError` (src/glide/errors.go lines 155-165): the source
rebuilds the error with every field copied verbatim, details included
("Pass through the backend error as-is"). -/
def sanitizeError (serverErr : GError) : GError :=
  { code := serverErr.code, message := serverErr.message,
    status := serverErr.status, requestId := serverErr.requestId,
    details := serverErr.details }

/-- Model of `isSafeDetail` (src/glide/errors.go lines 260-268): membership in
the map of the three safe keys.  Note this helper has no caller in
src/glide. -/
def isSafeDetail (key : String) : Bool :=
  key = "retry_after" || key = "session_id" || key = "use_case"

/-! ### Resilient transport, src/glide/http_client.go -/

/-- Wire-level error body as decoded by `parseErrorResponse`
(src/glide/http_client.go lines 286-291).  `some b` models a body that
`json.Unmarshal` accepts; `none` a body it rejects. -/
structure ApiErrBody where
  code : String := ""
  message : String := ""
  requestId : String := ""
  details : List (String × String) := []
deriving Repr, DecidableEq

/-- Model of `genericErrorForStatus` (src/glide/http_client.go lines
313-338). -/
def genericErrorForStatus (status : Int) : GError :=
  if status = 400 then NewErrorWithStatus ErrCodeBadRequest "Invalid request" status
  else if status = 401 then
    NewErrorWithStatus ErrCodeInternalServerError "Authentication failed" status
  else if status = 403 then
    NewErrorWithStatus ErrCodeInternalServerError "Access denied" status
  else if status = 404 then
    NewErrorWithStatus ErrCodeSessionNotFound "Resource not found" status
  else if status = 422 then
    NewErrorWithStatus ErrCodeUnprocessableEntity "Request could not be processed" status
  else if status = 429 then
    NewErrorWithStatus ErrCodeRateLimitExceeded "Too many requests" status
  else if status = 503 then
    NewErrorWithStatus ErrCodeServiceUnavailable "Service temporarily unavailable" status
  else if 500 ≤ status then
    NewErrorWithStatus ErrCodeInternalServerError "Server error occurred" status
  else
    NewErrorWithStatus ErrCodeInternalServerError
      ("Unexpected status: " ++ toString status) status

/-- Model of `parseErrorResponse` (src/glide/http_client.go lines 285-310):
a body that unmarshals with a non-empty `code` becomes a typed error run
through `sanitizeError`; anything else falls back to
`genericErrorForStatus`. -/
def parseErrorResponse (statusCode : Int) (parsed : Option ApiErrBody) : GError :=
  match parsed with
  | some apiErr =>
    if apiErr.code ≠ "" then
      sanitizeError
        { code := apiErr.code, message := apiErr.message, status := statusCode,
          requestId := apiErr.requestId, details := apiErr.details }
    else genericErrorForStatus statusCode
  | none => genericErrorForStatus statusCode

/-- Outcome of one `performRequest` attempt, as seen by `doRequest`:
either decoded response bytes or a typed error.  (In src/glide every error
`performRequest` returns is a `*glide.Error`.) -/
inductive ReqOutcome where
  | success (data : String)
  | failure (e : GError)
deriving Repr, DecidableEq

/-- Model of the retry loop of `doRequest` (src/glide/http_client.go lines
40-87).  `att n` is the oracle giving the outcome of attempt `n`
(0-indexed); `attempt` the current loop index; `remaining` the attempts the
loop may still run (`RetryCount + 1 - attempt`); `lastErr` the Go `lastErr`
variable.  Returns the Go pair `([]byte, error)` modelled as
`(Option String × Option GError)`, the number of attempts performed, and the
list of backoff delays slept (the code sleeps `RetryDelay * attempt` before
every attempt except the first).  Context cancellation during the backoff
sleep is not modelled (no claim concerns it). -/
def doRequestLoop (att : Nat → ReqOutcome) (retryDelay : Nat) :
    Nat → Nat → Option GError → (Option String × Option GError) × Nat × List Nat
  | _, 0, lastErr => ((none, lastErr), 0, [])
  | attempt, r + 1, _lastErr =>
    let delays : List Nat := if attempt = 0 then [] else [retryDelay * attempt]
    match att attempt with
    | .success d => ((some d, none), 1, delays)
    | .failure e =>
      if e.IsRetryable then
        let rest := doRequestLoop att retryDelay (attempt + 1) r (some e)
        (rest.1, rest.2.1 + 1, delays ++ rest.2.2)
      else ((none, some e), 1, delays)

/-- Model of `doRequest` (src/glide/http_client.go lines 25-88).  The client
builds its limiter iff `RateLimitEnabled` (initRateLimiter, lines 341-346),
so the guard `RateLimitEnabled && rateLimiter != nil` collapses to one flag;
`limiterWaitFails` models `rateLimiter.Wait(ctx)` returning an error.  On a
failed wait the code returns `NewError(ErrCodeRateLimitExceeded, ...)`
without entering the attempt loop. -/
def doRequest (rateLimitEnabled limiterWaitFails : Bool) (att : Nat → ReqOutcome)
    (retryDelay retryCount : Nat) : (Option String × Option GError) × Nat × List Nat :=
  if rateLimitEnabled && limiterWaitFails then
    ((none, some (NewError ErrCodeRateLimitExceeded "Client-side rate limit exceeded")), 0, [])
  else
    doRequestLoop att retryDelay 0 (retryCount + 1) none

/-! ### Input validation, src/glide/validation.go -/

/-- A decimal digit, the `\d` class of the source regexes. -/
def isDigitCh (c : Char) : Bool :=
  decide ('0' ≤ c) && decide (c ≤ '9')

/-- Whether the character list starts with '+', modelling
`strings.HasPrefix(phoneNumber, "+")` (src/glide/validation.go line 16). -/
def startsPlus : List Char → Bool
  | c0 :: _ => decide (c0 = '+')
  | [] => false

/-- The regex `^\+\d+$` of src/glide/validation.go line 30: a '+' followed by
one or more digits. -/
def matchPlusDigits : List Char → Bool
  | c0 :: rest => decide (c0 = '+') && (!rest.isEmpty && rest.all isDigitCh)
  | [] => false

/-- The regex `^\+[1-9]\d{1,14}$` of src/glide/validation.go line 36: a '+',
a digit 1-9, then one to fourteen further digits. -/
def matchE164 : List Char → Bool
  | c0 :: c1 :: rest =>
    decide (c0 = '+') && (decide ('1' ≤ c1) && decide (c1 ≤ '9')) &&
      !rest.isEmpty && decide (rest.length ≤ 14) && rest.all isDigitCh
  | _ => false

/-- Model of `ValidatePhoneNumber` (src/glide/validation.go lines 10-42).
Returns `none` on success, `some err` on failure, mirroring the Go
`(error)` return.  Go's `len` counts bytes where this model counts
characters; the two agree whenever the string survives the character-class
checks (ASCII only), and on other inputs they pick different
`INVALID_PHONE_NUMBER` messages but agree on success/failure and code. -/
def ValidatePhoneNumber (s : String) : Option GError :=
  if s = "" then none
  else if startsPlus s.data = false then
    some (NewError ErrCodeInvalidPhoneNumber
      "Phone number must be in E.164 format (start with +)")
  else if s.length < 8 then
    some (NewError ErrCodeInvalidPhoneNumber
      "Phone number too short for E.164 format (minimum 8 characters including +)")
  else if 16 < s.length then
    some (NewError ErrCodeInvalidPhoneNumber
      "Phone number too long for E.164 format (maximum 15 digits after +)")
  else if matchPlusDigits s.data = false then
    some (NewError ErrCodeInvalidPhoneNumber
      "Phone number contains invalid characters. E.164 format only allows + followed by digits")
  else if matchE164 s.data = false then
    some (NewError ErrCodeInvalidPhoneNumber "Invalid E.164 phone number format")
  else none

/-! ### Magic-auth credential flow, src/glide/magic_auth.go -/

/-- A JSON value as found inside the `map[string]interface{}` credential:
the `string` case, the `map[string]interface{}` case, and a representative
of every other JSON kind (the `default` branch of the type switch).  Go maps
are modelled as association lists; Go map iteration order is unspecified,
the list order is this model's determinization of it. -/
inductive CredVal where
  | str (s : String)
  | obj (fields : List (String × CredVal))
  | num (n : Int)

/-- Association-list lookup, modelling `req.Credential["vp_token"]`. -/
def lookupField (k : String) : List (String × CredVal) → Option CredVal
  | [] => none
  | (k2, v) :: rest => if k2 = k then some v else lookupField k rest

/-- The first string value of an object, modelling the
`for _, value := range vt` loop (src/glide/magic_auth.go lines 105-110)
that takes the first value that type-asserts to `string` and breaks. -/
def firstStringValue : List (String × CredVal) → String
  | [] => ""
  | (_, CredVal.str s) :: _ => s
  | _ :: rest => firstStringValue rest

mutual

/-- JSON encoding of a credential value, modelling the `json.Marshal`
fallbacks of src/glide/magic_auth.go (lines 112-124).  String escaping and
key ordering inside Go's marshaller are not needed by any claim; keys are
emitted in list order and strings verbatim. -/
def encodeJsonVal : CredVal → String
  | .str s => "\"" ++ s ++ "\""
  | .num n => toString n
  | .obj fs => "\x7b" ++ encodeJsonFields fs ++ "\x7d"

/-- JSON encoding of an object's fields, comma-separated. -/
def encodeJsonFields : List (String × CredVal) → String
  | [] => ""
  | [(k, v)] => "\"" ++ k ++ "\":" ++ encodeJsonVal v
  | (k, v) :: rest => "\"" ++ k ++ "\":" ++ encodeJsonVal v ++ "," ++ encodeJsonFields rest

end

/-- The raw `ts43dcString` extraction from the credential's `vp_token`
(src/glide/magic_auth.go lines 96-117): a bare string is used directly, an
object contributes its first string value, any other shape is JSON-encoded
(`json.Marshal` cannot fail on these values). -/
def vpTokenExtract (cred : List (String × CredVal)) : String :=
  match lookupField "vp_token" cred with
  | none => ""
  | some (CredVal.str s) => s
  | some (CredVal.obj fs) => firstStringValue fs
  | some v => encodeJsonVal v

/-- The full `ts43_dc` computation (src/glide/magic_auth.go lines 96-124):
when the raw extraction is empty the code JSON-encodes the *entire*
credential map and uses that instead. -/
def extractTs43dc (cred : List (String × CredVal)) : String :=
  let fromVp := vpTokenExtract cred
  if fromVp = "" then encodeJsonVal (CredVal.obj cred) else fromVp

/-- Model of `glide.SessionInfo` (src/glide/types.go lines 194-198). -/
structure SessionInfo where
  sessionKey : String := ""
  nonce : String := ""
  encKey : String := ""
deriving Repr, DecidableEq

/-- Model of `VerifyPhoneNumberRequest` (src/glide/types.go lines 219-225);
`none` models a nil pointer / nil map. -/
structure VerifyPhoneNumberRequest where
  sessionInfo : Option SessionInfo := none
  credential : Option (List (String × CredVal)) := none

/-- Model of `GetPhoneNumberRequest` (src/glide/types.go lines 237-243). -/
structure GetPhoneNumberRequest where
  sessionInfo : Option SessionInfo := none
  credential : Option (List (String × CredVal)) := none

/-- The client-side portion of `VerifyPhoneNumber` (src/glide/magic_auth.go
lines 84-134) up to the `doRequest` call: validation of the session info and
credential, extraction of `ts43_dc`, and the payload
`{"session": req.SessionInfo, "ts43_dc": ts43dcString}` that is forwarded
to the verify endpoint.  `Except.ok` carries the forwarded payload. -/
def buildVerifyPhonePayload (req : VerifyPhoneNumberRequest) :
    Except GError (SessionInfo × String) :=
  match req.sessionInfo with
  | none => .error (NewError ErrCodeInvalidParameters "Session info with session key is required")
  | some si =>
    if si.sessionKey = "" then
      .error (NewError ErrCodeInvalidParameters "Session info with session key is required")
    else
      match req.credential with
      | none => .error (NewError ErrCodeInvalidParameters "Credential is required")
      | some cred => .ok (si, extractTs43dc cred)

/-- The client-side portion of `GetPhoneNumber` (src/glide/magic_auth.go
lines 149-199) up to the `doRequest` call; the source duplicates the body of
`VerifyPhoneNumber` verbatim apart from the endpoint path. -/
def buildGetPhonePayload (req : GetPhoneNumberRequest) :
    Except GError (SessionInfo × String) :=
  match req.sessionInfo with
  | none => .error (NewError ErrCodeInvalidParameters "Session info with session key is required")
  | some si =>
    if si.sessionKey = "" then
      .error (NewError ErrCodeInvalidParameters "Session info with session key is required")
    else
      match req.credential with
      | none => .error (NewError ErrCodeInvalidParameters "Credential is required")
      | some cred => .ok (si, extractTs43dc cred)

/-! ### Session authenticator, `ogi` package (src/unnamed/part_008, part_009) -/

/-- Model of `ogi.SessionType` (src/unnamed/part_009 line 8): a Go `int`. -/
abbrev SessionType := Int

/-- First `iota` constant of `SessionType` (src/unnamed/part_009 line 11). -/
def Ciba : SessionType := 0

/-- Second `iota` constant of `SessionType` (src/unnamed/part_009 line 12). -/
def ThreeLeggedOAuth2 : SessionType := 1

/-- Model of `ogi.Session` (src/unnamed/part_009 lines 3-6).  The default
`sessionType` is the Go zero value of `&Session{}`, which is `Ciba = 0`;
JSON decoding of a token response sets only `access_token` (the
`SessionType` field has no matching key in an OAuth token response). -/
structure OgiSession where
  accessToken : String
  sessionType : SessionType := Ciba
deriving Repr, DecidableEq

/-- Model of `ogi.BaseAuthConfig` (src/unnamed/part_008 lines 129-132). -/
structure BaseAuthConfig where
  scopes : List String := []
  loginHint : String := ""
deriving Repr, DecidableEq

/-- Model of `ogi.AuthConfig` (src/unnamed/part_008 lines 134-139); `base`
is the embedded `*BaseAuthConfig` pointer (`none` = nil). -/
structure OgiAuthConfig where
  base : Option BaseAuthConfig := none
  provider : SessionType

/-- Model of `ogi.AuthenticationResponse` (src/unnamed/part_008 lines
141-144). -/
structure AuthenticationResponse where
  session : Option OgiSession := none
  redirectUrl : String := ""
deriving Repr, DecidableEq

/-- Result of one `fetchCibaToken` call (src/unnamed/part_008 lines
216-260): a transport failure / non-200 / parse error, or a decoded session
body whose `access_token` may be empty. -/
inductive FetchResult where
  | httpErr
  | ok (accessToken : String)
deriving Repr, DecidableEq

/-- Terminal outcome of the `pollCibaToken` select loop, one constructor per
`return` statement of src/unnamed/part_008 lines 262-292. -/
inductive PollOutcome where
  | tokenSession (tok : String)
  | fetchErr
  | pollingTimeout
  | invalidInterval
deriving Repr, DecidableEq

/-- Model of the `for { select { ... } }` loop of `pollCibaToken`
(src/unnamed/part_008 lines 270-291).  The ticker is created once before the
loop and fires at absolute times `interval, 2*interval, ...`; the
`time.After(2 * time.Minute)` expression is re-evaluated *inside* the loop,
arming a fresh 2-minute timer at the start of every iteration.  `k` counts
ticks already consumed, `s` is the start time of the current iteration (in
seconds), so the fresh timer fires at `s + 120` and the next tick at
`(k+1) * interval`; the strictly earlier event wins the select (a tie is
resolved in favour of the ticker here; Go chooses randomly, and no theorem
below depends on a tie).  Fuel bounds the iterations modelled: result
`none` means the loop is still running after `fuel` iterations.  The second
component counts `fetchCibaToken` network calls made. -/
def pollLoop (interval : Nat) (fetch : Nat → FetchResult) :
    Nat → Nat → Nat → Option PollOutcome × Nat
  | 0, _, _ => (none, 0)
  | fuel + 1, k, s =>
    if s + 120 < (k + 1) * interval then (some .pollingTimeout, 0)
    else
      match fetch k with
      | .httpErr => (some .fetchErr, 1)
      | .ok tok =>
        if tok = "" then
          let rest := pollLoop interval fetch fuel (k + 1) ((k + 1) * interval)
          (rest.1, rest.2 + 1)
        else (some (.tokenSession tok), 1)

/-- Model of `pollCibaToken` (src/unnamed/part_008 lines 262-292): intervals
below 1 fail immediately with the invalid-interval error, otherwise the
select loop runs from time 0 with no ticks consumed. -/
def pollCibaTokenRun (interval : Int) (fetch : Nat → FetchResult) (fuel : Nat) :
    Option PollOutcome × Nat :=
  if interval < 1 then (some PollOutcome.invalidInterval, 0)
  else pollLoop interval.toNat fetch fuel 0 0

/-- Network oracle for the authenticator: the decoded result of the
backchannel-authentication request (`auth_req_id`, `expires_in`,
`interval`), the result of the n-th `fetchCibaToken` call, and the two
`randomString` draws of the redirect flow. -/
structure CibaNet where
  authLoginHint : Except String (String × Int × Int)
  fetch : Nat → FetchResult
  nonce16 : String := "nonce"
  state10 : String := "state"

/-- Model of the mutable `GlideClient` (src/unnamed/part_008 lines 605-610)
together with the auth base URL it reads from the environment. -/
structure GlideClientState where
  clientId : String := ""
  clientSecret : String := ""
  redirectUri : String := ""
  authBaseUrl : String := ""
  session : Option OgiSession := none
deriving Repr, DecidableEq

/-- Model of `getCibaSession` (src/unnamed/part_008 lines 294-311): run the
authorization request, poll the token endpoint, and on success tag the
session with the `Ciba` grant type.  `none` in the first component means the
poll loop is still running after `fuel` iterations; the `Nat` counts network
calls (one per authorization request or token fetch). -/
def getCibaSession (net : CibaNet) (fuel : Nat) :
    Option (Except String OgiSession) × Nat :=
  match net.authLoginHint with
  | .error e => (some (.error e), 1)
  | .ok (_authReqId, _expiresIn, interval) =>
    let r := pollCibaTokenRun interval net.fetch fuel
    match r.1 with
    | none => (none, 1 + r.2)
    | some (.tokenSession tok) =>
      (some (.ok { accessToken := tok, sessionType := Ciba }), 1 + r.2)
    | some .fetchErr => (some (.error "error fetching ciba token"), 1 + r.2)
    | some .pollingTimeout => (some (.error "ciba token polling timeout"), 1 + r.2)
    | some .invalidInterval => (some (.error "invalid interval"), 1 + r.2)

/-- Model of `get3LeggedAuthRedirectUrl` (src/unnamed/part_008 lines
313-347): a URL built locally from the client credentials and config; no
network call is made.  `q.Encode()` emits keys in sorted order, which for
this fixed key set is hard-coded below; percent-escaping of values is not
modelled (no claim inspects the URL text). -/
def get3LeggedAuthRedirectUrl (c : GlideClientState) (net : CibaNet)
    (cfg : BaseAuthConfig) : String :=
  let kvs : List (String × String) :=
    [("audience", c.clientId), ("client_id", c.clientId)] ++
    (if cfg.loginHint ≠ "" then [("login_hint", cfg.loginHint)] else []) ++
    [("max_age", "0"), ("nonce", net.nonce16), ("purpose", ""),
     ("redirect_uri", c.redirectUri), ("response_type", "code"),
     ("scope", String.intercalate " " cfg.scopes), ("state", net.state10)]
  c.authBaseUrl ++ "/oauth2/auth?" ++
    String.intercalate "&" (kvs.map (fun p => p.1 ++ "=" ++ p.2))

/-- The body of `Authenticate` past the session-reuse guard
(src/unnamed/part_008 lines 405-435): default the base config, then switch
on the provider.  The `Ciba` case stores the new session on the client; the
`ThreeLeggedOAuth2` case only builds a redirect URL; any other provider is
an error.  Returns (outcome, new client state, network calls); outcome
`none` means the polling loop is still running after `fuel` iterations. -/
def authenticateRun (c : GlideClientState) (cfg : OgiAuthConfig) (net : CibaNet)
    (fuel : Nat) :
    Option (Except String AuthenticationResponse) × GlideClientState × Nat :=
  let base := cfg.base.getD { scopes := ["openid"] }
  if cfg.provider = Ciba then
    match getCibaSession net fuel with
    | (none, n) => (none, c, n)
    | (some (.error e), n) => (some (.error e), c, n)
    | (some (.ok s), n) =>
      (some (.ok { session := some s }), { c with session := some s }, n)
  else if cfg.provider = ThreeLeggedOAuth2 then
    (some (.ok { redirectUrl := get3LeggedAuthRedirectUrl c net base }), c, 0)
  else
    (some (.error ("invalid provider: " ++ toString cfg.provider)), c, 0)

/-- Model of `Authenticate` (src/unnamed/part_008 lines 398-436).  The guard
`c.session != nil && c.session.SessionType >= authConfig.Provider` returns
the cached session unchanged with no network call; otherwise the requested
flow runs. -/
def authenticate (c : GlideClientState) (cfg : OgiAuthConfig) (net : CibaNet)
    (fuel : Nat) :
    Option (Except String AuthenticationResponse) × GlideClientState × Nat :=
  match c.session with
  | some s =>
    if cfg.provider ≤ s.sessionType then (some (.ok { session := some s }), c, 0)
    else authenticateRun c cfg net fuel
  | none => authenticateRun c cfg net fuel

/-- Model of `ExchangeCodeForSession` (src/unnamed/part_008 lines 349-396).
`exchangeResult` is the decoded outcome of the `POST /oauth2/token` call
(`.ok accessToken` for a 200 with a parsed body).  On success the code does
`session := &Session{}` followed by JSON decoding, which sets only
`AccessToken`; `SessionType` keeps the zero value `Ciba`, and the session is
stored on the client. -/
def exchangeCodeForSession (c : GlideClientState)
    (exchangeResult : Except String String) :
    Except String OgiSession × GlideClientState × Nat :=
  match exchangeResult with
  | .error e => (.error e, c, 1)
  | .ok accessToken =>
    let s : OgiSession := { accessToken := accessToken }
    (.ok s, { c with session := some s }, 1)

/-- Projection of an `authenticate` outcome onto the response's session
field: `some sess?` when the call returned a successful
`AuthenticationResponse`, `none` when it failed or is still polling. -/
def authRespSession (r : Option (Except String AuthenticationResponse)) :
    Option (Option OgiSession) :=
  match r with
  | some (.ok resp) => some resp.session
  | _ => none

/-- A network oracle whose calls all fail; the redirect flow and the
session-reuse guard never consult it. -/
def trivialNet : CibaNet :=
  { authLoginHint := .error "unused", fetch := fun _ => .httpErr }

/-- A network oracle for a successful backchannel flow: the authorization
request yields poll interval 1 and every token fetch returns the token
"tok". -/
def happyNet : CibaNet :=
  { authLoginHint := .ok ("req-1", 3600, 1), fetch := fun _ => .ok "tok" }

/-! ### Concrete inputs used by witnesses -/

/-- A retryable error: its code is in the retryable switch. -/
def retryErrW : GError := NewError ErrCodeServiceUnavailable "unavailable"

/-- A non-retryable error: code outside the switch, status 0. -/
def nonRetryErrW : GError := NewError ErrCodeBadRequest "bad"

/-- An attempt oracle that fails retryably once and then succeeds. -/
def attWitness : Nat → ReqOutcome :=
  fun n => if n = 0 then ReqOutcome.failure retryErrW else ReqOutcome.success "ok"

/-- An attempt oracle that always fails non-retryably. -/
def attNonRetry : Nat → ReqOutcome := fun _ => ReqOutcome.failure nonRetryErrW

/-- An attempt oracle that always fails retryably. -/
def attAllFail : Nat → ReqOutcome := fun _ => ReqOutcome.failure retryErrW

/-- The session produced by a backchannel flow whose token is "tok". -/
def sessTok : OgiSession := { accessToken := "tok" }

/-! ### Theorems -/


/-- Claim C4: `IsRetryable` returns true iff the error's code is in the fixed
set of rate-limit, service-unavailable, upstream/gateway and timeout codes,
or its status lies in [500, 600); every other code with status below 500
(all 4xx validation/semantic errors included) is non-retryable. -/
theorem isRetryable_iff (e : GError) :
    e.IsRetryable = true ↔ e.code ∈ retryableCodes ∨ (500 ≤ e.status ∧ e.status < 600) := by
  unfold GError.IsRetryable retryableCodes
  split
  · rename_i h
    simp only [List.mem_cons, List.not_mem_nil, or_false, true_iff]
    tauto
  · rename_i h
    simp only [List.mem_cons, List.not_mem_nil, or_false, decide_eq_true_eq]
    constructor
    · intro hd; exact Or.inr hd
    · rintro (hmem | hrange)
      · exact absurd (by tauto) h
      · exact hrange

/-- Witness for C4: a 422 carrier-ineligibility error is non-retryable. -/
theorem isRetryable_iff_witness :
    (NewErrorWithStatus "CARRIER_NOT_ELIGIBLE" "m" 422).IsRetryable = false := by
  have h := isRetryable_iff (NewErrorWithStatus "CARRIER_NOT_ELIGIBLE" "m" 422)
  rw [Bool.eq_false_iff]
  intro hc
  rcases h.mp hc with hmem | hrange
  · revert hmem; decide
  · revert hrange; decide

/-- Claim C8 (amended): `sanitizeError` passes every field of a server error
through unchanged, detail keys included, so errors produced from a server
error response expose *all* server-provided detail keys; `isSafeDetail`
recognises exactly `retry_after`, `session_id`, `use_case` but is never
applied on this path. -/
theorem sanitizeError_passes_details_through (e : GError) (status : Int) (b : ApiErrBody)
    (k : String) :
    sanitizeError e = e ∧
    (b.code ≠ "" → (parseErrorResponse status (some b)).details = b.details) ∧
    (isSafeDetail k = true ↔ (k = "retry_after" ∨ k = "session_id" ∨ k = "use_case")) := by
  refine ⟨rfl, ?_, ?_⟩
  · intro hb
    simp [parseErrorResponse, hb, sanitizeError]
  · simp [isSafeDetail, Bool.or_eq_true, decide_eq_true_eq, or_assoc]

/-- Witness for C8: a server body carrying an unsafe `password` detail key is
passed through verbatim. -/
theorem sanitizeError_passes_details_through_witness :
    (parseErrorResponse 422
      (some { code := "CARRIER_NOT_ELIGIBLE", message := "m",
              details := [("password", "hunter2")] })).details = [("password", "hunter2")] :=
  (sanitizeError_passes_details_through (NewError "" "") 422
    { code := "CARRIER_NOT_ELIGIBLE", message := "m", details := [("password", "hunter2")] }
    "x").2.1 (by decide)

/-- Counterexample to C8 as stated: an error produced from a server error
response retains the detail key `password`, which is not one of the safe
keys `retry_after`, `session_id`, `use_case`. -/
theorem errorDetails_not_filtered_cex :
    (parseErrorResponse 422
      (some { code := "CARRIER_NOT_ELIGIBLE", message := "m",
              details := [("password", "hunter2")] })).details = [("password", "hunter2")] ∧
    isSafeDetail "password" = false := by
  exact ⟨rfl, by decide⟩

/-- Claim C10: when the error body has no parseable non-empty `code`, a bare
401 maps to code INTERNAL_SERVER_ERROR with message "Authentication failed"
and a bare 403 to INTERNAL_SERVER_ERROR with "Access denied", each keeping
the original status, which is the same code a 500 produces, so the `code`
field alone cannot distinguish auth failures from server faults. -/
theorem genericError_auth_statuses (b : Option ApiErrBody)
    (hb : b = none ∨ ∃ x, b = some x ∧ x.code = "") :
    parseErrorResponse 401 b
      = { code := ErrCodeInternalServerError, message := "Authentication failed", status := 401 } ∧
    parseErrorResponse 403 b
      = { code := ErrCodeInternalServerError, message := "Access denied", status := 403 } ∧
    (parseErrorResponse 401 b).code = (genericErrorForStatus 500).code ∧
    (parseErrorResponse 403 b).code = (genericErrorForStatus 500).code := by
  have h1 : parseErrorResponse 401 b = genericErrorForStatus 401 := by
    rcases hb with rfl | ⟨x, rfl, hcode⟩
    · rfl
    · simp [parseErrorResponse, hcode]
  have h3 : parseErrorResponse 403 b = genericErrorForStatus 403 := by
    rcases hb with rfl | ⟨x, rfl, hcode⟩
    · rfl
    · simp [parseErrorResponse, hcode]
  rw [h1, h3]
  exact ⟨by decide, by decide, by decide, by decide⟩

/-- Witness for C10 at an unparseable body. -/
theorem genericError_auth_statuses_witness :
    parseErrorResponse 401 none
      = { code := ErrCodeInternalServerError, message := "Authentication failed", status := 401 } :=
  (genericError_auth_statuses none (Or.inl rfl)).1

/-- Claim C6 (amended): with rate limiting enabled and the limiter wait
exhausted, `doRequest` returns a RATE_LIMIT_EXCEEDED error having performed
zero attempts and zero backoff sleeps; contrary to the claim, that error is
*retryable* (`IsRetryable` is true, because RATE_LIMIT_EXCEEDED is in the
retryable code set). -/
theorem doRequest_limiter_exhausted (att : Nat → ReqOutcome) (rd rc : Nat) :
    doRequest true true att rd rc
      = ((none, some (NewError ErrCodeRateLimitExceeded "Client-side rate limit exceeded")),
         0, []) ∧
    (NewError ErrCodeRateLimitExceeded "Client-side rate limit exceeded").IsRetryable = true := by
  exact ⟨rfl, by decide⟩

/-- Witness for C6 at a concrete attempt oracle. -/
theorem doRequest_limiter_exhausted_witness :
    doRequest true true attNonRetry 2 3
      = ((none, some (NewError ErrCodeRateLimitExceeded "Client-side rate limit exceeded")),
         0, []) :=
  (doRequest_limiter_exhausted attNonRetry 2 3).1

/-- Counterexample to C6 as stated: the error returned on limiter-wait
exhaustion has `IsRetryable` true, not false. -/
theorem doRequest_limiter_error_retryable_cex :
    Option.map GError.IsRetryable
      (doRequest true true attNonRetry 2 3).1.2 = some true := by
  decide

/-- Counterexample to C7 as stated: for a credential whose `vp_token` is an
empty object, both calls succeed client-side and forward the JSON-encoded
credential as `ts43_dc`, in place of failing with INVALID_CREDENTIAL_FORMAT
and forwarding nothing. -/
theorem magicAuth_forwards_on_empty_extraction_cex :
    buildVerifyPhonePayload
      { sessionInfo := some { sessionKey := "sk" },
        credential := some [("vp_token", CredVal.obj [])] }
      = Except.ok ({ sessionKey := "sk" }, "\x7b\"vp_token\":\x7b\x7d\x7d") ∧
    buildGetPhonePayload
      { sessionInfo := some { sessionKey := "sk" },
        credential := some [("vp_token", CredVal.obj [])] }
      = Except.ok ({ sessionKey := "sk" }, "\x7b\"vp_token\":\x7b\x7d\x7d") := by
  exact ⟨rfl, rfl⟩

/-- Claim C7 (amended): in VerifyPhoneNumber and GetPhoneNumber, when
extraction of the carrier-signed token from the credential's `vp_token`
yields an empty or unmatched result, the call does *not* fail closed: it
falls back to JSON-encoding the entire credential, forwards that as
`ts43_dc`, and produces no client-side INVALID_CREDENTIAL_FORMAT error. -/
theorem magicAuth_fallback_encodes_credential (si : SessionInfo)
    (cred : List (String × CredVal)) (hk : si.sessionKey ≠ "")
    (hempty : vpTokenExtract cred = "") :
    buildVerifyPhonePayload { sessionInfo := some si, credential := some cred }
      = Except.ok (si, encodeJsonVal (CredVal.obj cred)) ∧
    buildGetPhonePayload { sessionInfo := some si, credential := some cred }
      = Except.ok (si, encodeJsonVal (CredVal.obj cred)) := by
  unfold buildVerifyPhonePayload buildGetPhonePayload extractTs43dc
  simp [hk, hempty]

/-- Witness for C7 at a credential with an empty `vp_token` object. -/
theorem magicAuth_fallback_encodes_credential_witness :
    buildVerifyPhonePayload
      { sessionInfo := some { sessionKey := "sk" },
        credential := some [("vp_token", CredVal.obj [])] }
      = Except.ok ({ sessionKey := "sk" },
          encodeJsonVal (CredVal.obj [("vp_token", CredVal.obj [])])) :=
  (magicAuth_fallback_encodes_credential { sessionKey := "sk" }
    [("vp_token", CredVal.obj [])] (by decide) rfl).1

/-- Claim C5 (code bug): a successful `ExchangeCodeForSession` caches the new
session on the client, but the cached session carries the zero-value grant
type `Ciba`; the code never assigns `ThreeLeggedOAuth2`, so a subsequent
`Authenticate` requesting the redirect grant ignores the cached session and
returns a fresh redirect URL with no session. -/
theorem exchangeCodeForSession_zero_value_tag :
    (exchangeCodeForSession {} (.ok "tok")).2.1.session
      = some { accessToken := "tok", sessionType := Ciba } ∧
    authRespSession (authenticate (exchangeCodeForSession {} (.ok "tok")).2.1
        { provider := ThreeLeggedOAuth2 } trivialNet 1).1 = some none := by
  exact ⟨rfl, rfl⟩

/-- Helper: with any poll interval between 1 and 120 seconds and a token
endpoint that always answers 200 without an access token, the polling loop
is still running after any number of iterations; the freshly re-armed
2-minute timer always loses the select to the ticker. -/
theorem pollLoop_empty_none (interval : Nat) (h1 : 1 ≤ interval) (h2 : interval ≤ 120) :
    ∀ fuel k, (pollLoop interval (fun _ => FetchResult.ok "") fuel k (k * interval)).1 = none := by
  intro fuel
  induction fuel with
  | zero => intro k; simp [pollLoop]
  | succ n ih =>
    intro k
    have hguard : ¬ (k * interval + 120 < (k + 1) * interval) := by
      have hx : (k + 1) * interval = k * interval + interval := by ring
      omega
    simp only [pollLoop, hguard, if_false]
    simpa using ih (k + 1)

/-- Claim C2 (code bug): with poll interval 1 second and a token endpoint
that always responds successfully but never returns an access token,
`pollCibaToken` never reaches any terminal outcome, and in particular never
returns the polling-timeout error, because `time.After(2 * time.Minute)`
is re-evaluated inside the loop, restarting the timeout on every poll. -/
theorem pollCibaToken_never_times_out :
    ∀ fuel, (pollCibaTokenRun 1 (fun _ => FetchResult.ok "") fuel).1 = none := by
  intro fuel
  have h := pollLoop_empty_none 1 (by omega) (by omega) fuel 0
  simpa [pollCibaTokenRun] using h

/-- Witness for C2: after five iterations the loop is still running. -/
theorem pollCibaToken_never_times_out_witness :
    (pollCibaTokenRun 1 (fun _ => FetchResult.ok "") 5).1 = none :=
  pollCibaToken_never_times_out 5

/-- Counterexample to C9 as stated: the empty string does not match
the E.164 regex yet `ValidatePhoneNumber` accepts it, and
"+123456" matches the regex yet `ValidatePhoneNumber` rejects it (length
below the code's 8-character minimum). -/
theorem validatePhoneNumber_regex_cex :
    matchE164 (String.data "") = false ∧
    ValidatePhoneNumber "" = none ∧
    matchE164 (String.data "+123456") = true ∧
    ValidatePhoneNumber "+123456"
      = some (NewError ErrCodeInvalidPhoneNumber
          "Phone number too short for E.164 format (minimum 8 characters including +)") := by
  exact ⟨rfl, rfl, by decide, by decide⟩

/-- Helper: a string matching the E.164 regex starts with a plus sign,
matches the plus-digits regex, and has length between 3 and 16. -/
theorem matchE164_implies {l : List Char} (h : matchE164 l = true) :
    startsPlus l = true ∧ matchPlusDigits l = true ∧ 3 ≤ l.length ∧ l.length ≤ 16 := by
  match l with
  | [] => simp [matchE164] at h
  | [a] => simp [matchE164] at h
  | [c0, c1] => simp [matchE164] at h
  | c0 :: c1 :: r2 :: rt =>
    simp only [matchE164, List.isEmpty_cons, Bool.not_false, Bool.and_true, Bool.true_and,
      Bool.and_eq_true, decide_eq_true_eq, List.all_cons] at h
    obtain ⟨⟨⟨h0, h1, h9⟩, hlen⟩, hd2, hdig⟩ := h
    have hd1 : isDigitCh c1 = true := by
      simp only [isDigitCh, Bool.and_eq_true, decide_eq_true_eq]
      exact ⟨le_trans (by decide) h1, h9⟩
    refine ⟨by simp [startsPlus, h0], ?_, ?_, ?_⟩
    · simp only [matchPlusDigits, List.isEmpty_cons, Bool.not_false, Bool.and_eq_true,
        decide_eq_true_eq, List.all_cons, Bool.true_and]
      exact ⟨h0, hd1, hd2, hdig⟩
    · simp only [List.length_cons]
      omega
    · simp only [List.length_cons] at hlen ⊢
      omega

/-- Claim C9 (amended): `ValidatePhoneNumber` succeeds exactly on the empty
string and on strings that match the E.164 regex *and* have at
least 8 characters; every failure carries the INVALID_PHONE_NUMBER code. -/
theorem validatePhoneNumber_characterization (s : String) :
    (ValidatePhoneNumber s = none ↔
      (s = "" ∨ (matchE164 s.data = true ∧ 8 ≤ s.length))) ∧
    (∀ e, ValidatePhoneNumber s = some e → e.code = ErrCodeInvalidPhoneNumber) := by
  constructor
  · unfold ValidatePhoneNumber
    split_ifs with h1 h2 h3 h4 h5 h6
    · simp [h1]
    · simp only [h1, false_or]
      constructor
      · intro h; cases h
      · rintro ⟨h164, -⟩
        rw [(matchE164_implies h164).1] at h2
        cases h2
    · simp only [h1, false_or]
      constructor
      · intro h; cases h
      · rintro ⟨-, hlen⟩; omega
    · simp only [h1, false_or]
      constructor
      · intro h; cases h
      · rintro ⟨h164, -⟩
        have := (matchE164_implies h164).2.2.2
        have hlen : s.length = s.data.length := rfl
        omega
    · simp only [h1, false_or]
      constructor
      · intro h; cases h
      · rintro ⟨h164, -⟩
        rw [(matchE164_implies h164).2.1] at h5
        cases h5
    · simp only [h1, false_or]
      constructor
      · intro h; cases h
      · rintro ⟨h164, -⟩
        rw [h164] at h6
        cases h6
    · simp only [h1, false_or, true_iff]
      refine ⟨by rwa [Bool.not_eq_false] at h6, by omega⟩
  · unfold ValidatePhoneNumber
    split_ifs <;> intro e he <;> cases he <;> rfl

/-- Witness for C9: "+14155552671" passes, "14155552671" fails with the
invalid-phone-number code. -/
theorem validatePhoneNumber_characterization_witness :
    ValidatePhoneNumber "+14155552671" = none ∧
    (NewError ErrCodeInvalidPhoneNumber
        "Phone number must be in E.164 format (start with +)").code
      = ErrCodeInvalidPhoneNumber :=
  ⟨(validatePhoneNumber_characterization "+14155552671").1.mpr (Or.inr (by decide)),
   (validatePhoneNumber_characterization "14155552671").2
     (NewError ErrCodeInvalidPhoneNumber
       "Phone number must be in E.164 format (start with +)") (by decide)⟩

/-- Helper: the retry loop performs at most `remaining` attempts. -/
theorem doRequestLoop_attempts_le (att : Nat → ReqOutcome) (rd : Nat) :
    ∀ r a le_, (doRequestLoop att rd a r le_).2.1 ≤ r := by
  intro r
  induction r with
  | zero => intro a le_; simp [doRequestLoop]
  | succ n ih =>
    intro a le_
    simp only [doRequestLoop]
    cases h : att a with
    | success d => simp
    | failure e =>
      by_cases hr : e.IsRetryable
      · simp only [hr, if_true]
        exact Nat.succ_le_succ (ih (a + 1) (some e))
      · simp [hr]

/-- Helper: starting from attempt index `a`, `1 <= a`, the loop sleeps
`retryDelay * i` before each attempt `i` it performs. -/
theorem doRequestLoop_delays (att : Nat → ReqOutcome) (rd : Nat) :
    ∀ r a le_, 1 ≤ a →
      (doRequestLoop att rd a r le_).2.2
        = (List.range' a (doRequestLoop att rd a r le_).2.1).map (fun i => rd * i) := by
  intro r
  induction r with
  | zero => intro a le_ ha; simp [doRequestLoop]
  | succ n ih =>
    intro a le_ ha
    have ha0 : ¬ (a = 0) := by omega
    simp only [doRequestLoop, ha0, if_false]
    cases h : att a with
    | success d => simp [List.range'_succ]
    | failure e =>
      by_cases hr : e.IsRetryable
      · simp only [hr, if_true]
        rw [ih (a + 1) (some e) (by omega)]
        rw [List.range'_succ]
        simp
      · simp [hr, List.range'_succ]

/-- Helper: if the first `k` attempts fail retryably and attempt `k`
(0-indexed) succeeds within budget, the loop returns that success after
exactly `k + 1` attempts. -/
theorem doRequestLoop_success_at (att : Nat → ReqOutcome) (rd : Nat) (d : String) :
    ∀ k a r le_, k < r →
      (∀ i, i < k → ∃ e, att (a + i) = ReqOutcome.failure e ∧ e.IsRetryable = true) →
      att (a + k) = ReqOutcome.success d →
      (doRequestLoop att rd a r le_).1 = (some d, none) ∧
        (doRequestLoop att rd a r le_).2.1 = k + 1 := by
  intro k
  induction k with
  | zero =>
    intro a r le_ hk _hfail hsucc
    obtain ⟨r2, rfl⟩ : ∃ r2, r = r2 + 1 := ⟨r - 1, by omega⟩
    simp only [Nat.add_zero] at hsucc
    simp [doRequestLoop, hsucc]
  | succ k ih =>
    intro a r le_ hk hfail hsucc
    obtain ⟨r2, rfl⟩ : ∃ r2, r = r2 + 1 := ⟨r - 1, by omega⟩
    obtain ⟨e, he, her⟩ := hfail 0 (by omega)
    simp only [Nat.add_zero] at he
    simp only [doRequestLoop, he, her, if_true]
    have harg : ∀ i, i < k → ∃ e2, att ((a + 1) + i) = ReqOutcome.failure e2 ∧
        e2.IsRetryable = true := by
      intro i hi
      have h := hfail (i + 1) (by omega)
      rwa [(by omega : a + (i + 1) = a + 1 + i)] at h
    have hsucc2 : att ((a + 1) + k) = ReqOutcome.success d := by
      rwa [(by omega : a + (k + 1) = a + 1 + k)] at hsucc
    have hrec := ih (a + 1) r2 (some e) (by omega) harg hsucc2
    exact ⟨hrec.1, by simp [hrec.2]⟩

/-- Helper: if every attempt in budget fails retryably, the loop exhausts
its budget and returns the last error. -/
theorem doRequestLoop_all_fail (att : Nat → ReqOutcome) (rd : Nat) (f : Nat → GError) :
    ∀ r a le_, 1 ≤ r →
      (∀ i, i < r → att (a + i) = ReqOutcome.failure (f (a + i)) ∧
        (f (a + i)).IsRetryable = true) →
      (doRequestLoop att rd a r le_).1 = (none, some (f (a + (r - 1)))) ∧
        (doRequestLoop att rd a r le_).2.1 = r := by
  intro r
  induction r with
  | zero => intro a le_ h; omega
  | succ n ih =>
    intro a le_ _ hfail
    obtain ⟨h0, h0r⟩ := hfail 0 (by omega)
    simp only [Nat.add_zero] at h0 h0r
    simp only [doRequestLoop, h0, h0r, if_true]
    cases n with
    | zero => simp [doRequestLoop]
    | succ m =>
      have harg : ∀ i, i < m + 1 → att ((a + 1) + i) = ReqOutcome.failure (f ((a + 1) + i)) ∧
          (f ((a + 1) + i)).IsRetryable = true := by
        intro i hi
        have h := hfail (i + 1) (by omega)
        rwa [(by omega : a + (i + 1) = a + 1 + i)] at h
      have hrec := ih (a + 1) (some (f a)) (by omega) harg
      constructor
      · rw [hrec.1, (by omega : a + 1 + (m + 1 - 1) = a + (m + 1 + 1 - 1))]
      · simp [hrec.2]

/-- Helper: with rate limiting off, `doRequest` is the bare retry loop. -/
theorem doRequest_unfold (att : Nat → ReqOutcome) (rd rc : Nat) :
    doRequest false false att rd rc = doRequestLoop att rd 0 (rc + 1) none := rfl

/-- Helper: `doRequest` sleeps `retryDelay * i` before each retry
`i = 1, ..., attempts - 1` and not before the first attempt. -/
theorem doRequest_delays_shape (att : Nat → ReqOutcome) (rd rc : Nat) :
    (doRequest false false att rd rc).2.2
      = (List.range' 1 ((doRequest false false att rd rc).2.1 - 1)).map (fun i => rd * i) := by
  rw [doRequest_unfold]
  simp only [doRequestLoop, if_pos rfl]
  cases h : att 0 with
  | success d => simp
  | failure e =>
    by_cases hr : e.IsRetryable
    · simp only [hr, if_true]
      rw [doRequestLoop_delays att rd rc 1 (some e) (by omega)]
      simp
    · simp [hr]

/-- Claim C3: `doRequest` attempts the request at most `retryCount + 1`
times, waits `retryDelay * attemptNumber` before each retry and not before
the first attempt, stops at the first success, stops immediately on a
non-retryable error (exactly 1 attempt for a non-retryable first error;
exactly `k + 1` attempts when the first `k` attempts fail retryably and
attempt `k + 1` succeeds), and returns the last error when every attempt
fails retryably. -/
theorem doRequest_retry_contract (att : Nat → ReqOutcome) (rd rc : Nat) :
    (doRequest false false att rd rc).2.1 ≤ rc + 1 ∧
    (doRequest false false att rd rc).2.2
      = (List.range' 1 ((doRequest false false att rd rc).2.1 - 1)).map (fun i => rd * i) ∧
    (∀ e, att 0 = ReqOutcome.failure e → e.IsRetryable = false →
      doRequest false false att rd rc = ((none, some e), 1, [])) ∧
    (∀ k d, k ≤ rc →
      (∀ i, i < k → ∃ e, att i = ReqOutcome.failure e ∧ e.IsRetryable = true) →
      att k = ReqOutcome.success d →
      (doRequest false false att rd rc).1 = (some d, none) ∧
        (doRequest false false att rd rc).2.1 = k + 1) ∧
    (∀ f : Nat → GError,
      (∀ i, i ≤ rc → att i = ReqOutcome.failure (f i) ∧ (f i).IsRetryable = true) →
      (doRequest false false att rd rc).1 = (none, some (f rc)) ∧
        (doRequest false false att rd rc).2.1 = rc + 1) := by
  refine ⟨?_, doRequest_delays_shape att rd rc, ?_, ?_, ?_⟩
  · rw [doRequest_unfold]; exact doRequestLoop_attempts_le att rd (rc + 1) 0 none
  · intro e h0 hnr
    rw [doRequest_unfold]
    simp [doRequestLoop, h0, hnr]
  · intro k d hk hfail hsucc
    rw [doRequest_unfold]
    exact doRequestLoop_success_at att rd d k 0 (rc + 1) none (by omega)
      (by simpa using hfail) (by simpa using hsucc)
  · intro f hfail
    rw [doRequest_unfold]
    have h := doRequestLoop_all_fail att rd f (rc + 1) 0 none (by omega)
      (by intro i hi; simpa using hfail i (by omega))
    simpa using h

/-- Witness for C3: success after one retryable failure takes 2 attempts; a
non-retryable first error stops after 1 attempt; two retryable failures
with retryCount 1 exhaust the budget and surface the last error. -/
theorem doRequest_retry_contract_witness :
    (doRequest false false attWitness 2 3).1 = (some "ok", none) ∧
    (doRequest false false attWitness 2 3).2.1 = 2 ∧
    doRequest false false attNonRetry 2 3 = ((none, some nonRetryErrW), 1, []) ∧
    (doRequest false false attAllFail 2 1).1 = (none, some retryErrW) ∧
    (doRequest false false attAllFail 2 1).2.1 = 2 := by
  have hsw := (doRequest_retry_contract attWitness 2 3).2.2.2.1 1 "ok" (by omega)
    (by
      intro i hi
      refine ⟨retryErrW, ?_, by decide⟩
      interval_cases i
      rfl)
    rfl
  have hnr := (doRequest_retry_contract attNonRetry 2 3).2.2.1 nonRetryErrW rfl (by decide)
  have haf := (doRequest_retry_contract attAllFail 2 1).2.2.2.2 (fun _ => retryErrW)
    (fun i _ => ⟨rfl, show retryErrW.IsRetryable = true by decide⟩)
  exact ⟨hsw.1, hsw.2, hnr, haf.1, haf.2⟩

/-- Helper: the session-reuse guard of `Authenticate` returns the cached
session unchanged with zero network calls whenever the cached grant type is
numerically at least the requested provider. -/
theorem authenticate_reuse_helper (c : GlideClientState) (s : OgiSession)
    (cfg : OgiAuthConfig) (net : CibaNet) (fuel : Nat)
    (hs : c.session = some s) (hge : cfg.provider ≤ s.sessionType) :
    authenticate c cfg net fuel = (some (.ok { session := some s }), c, 0) := by
  simp [authenticate, hs, hge]

/-- Helper: every session the backchannel flow returns is tagged `Ciba`. -/
theorem getCibaSession_ok_type {net : CibaNet} {fuel : Nat} {s : OgiSession} {n : Nat}
    (h : getCibaSession net fuel = (some (.ok s), n)) : s.sessionType = Ciba := by
  unfold getCibaSession at h
  cases hl : net.authLoginHint with
  | error e => simp [hl] at h
  | ok t =>
    obtain ⟨id, ei, iv⟩ := t
    simp only [hl] at h
    cases hr : (pollCibaTokenRun iv net.fetch fuel).1 with
    | none => simp [hr] at h
    | some o =>
      cases o with
      | tokenSession tok =>
        simp only [hr, Prod.mk.injEq, Option.some.injEq, Except.ok.injEq] at h
        rw [← h.1]
      | fetchErr => simp [hr] at h
      | pollingTimeout => simp [hr] at h
      | invalidInterval => simp [hr] at h

/-- Claim C1 (amended): `Authenticate` returns the cached session unchanged
with zero network calls exactly when the cached grant type is numerically at
least the requested provider under the code's encoding `Ciba = 0 <
ThreeLeggedOAuth2 = 1` (so a redirect session satisfies a backchannel
request, the reverse of the claimed order); in particular, after one
successful backchannel `Authenticate`, a second call requesting the
backchannel grant returns the same session with zero network calls. -/
theorem authenticate_session_reuse_amended :
    (∀ c s cfg net fuel, c.session = some s → cfg.provider ≤ s.sessionType →
      authenticate c cfg net fuel = (some (.ok { session := some s }), c, 0)) ∧
    (∀ c cfg net fuel resp c1 n, c.session = none → cfg.provider = Ciba →
      authenticate c cfg net fuel = (some (.ok resp), c1, n) →
      ∀ cfg2 net2 fuel2, cfg2.provider ≤ Ciba →
        ∃ s, resp.session = some s ∧ s.sessionType = Ciba ∧ c1.session = some s ∧
          authenticate c1 cfg2 net2 fuel2 = (some (.ok { session := some s }), c1, 0)) := by
  constructor
  · intro c s cfg net fuel hs hge
    exact authenticate_reuse_helper c s cfg net fuel hs hge
  · intro c cfg net fuel resp c1 n hnone hciba hauth cfg2 net2 fuel2 hp2
    simp only [authenticate, hnone] at hauth
    simp only [authenticateRun, hciba, if_pos rfl] at hauth
    cases hg : getCibaSession net fuel with
    | mk o m =>
      rw [hg] at hauth
      cases o with
      | none => simp at hauth
      | some r =>
        cases r with
        | error e => simp at hauth
        | ok s =>
          have hty : s.sessionType = Ciba := getCibaSession_ok_type hg
          simp only [Prod.mk.injEq, Option.some.injEq, Except.ok.injEq] at hauth
          obtain ⟨rfl, rfl, -⟩ := hauth
          refine ⟨s, rfl, hty, rfl, ?_⟩
          exact authenticate_reuse_helper _ s cfg2 net2 fuel2 rfl
            (by rw [hty]; exact hp2)

/-- Witness for C1: a cached backchannel session is reused for a backchannel
request, and the session produced by a concrete successful backchannel flow
is reused by the follow-up call. -/
theorem authenticate_session_reuse_amended_witness :
    authenticate { session := some sessTok } { provider := Ciba } trivialNet 0
      = (some (.ok { session := some sessTok }), { session := some sessTok }, 0) ∧
    (∃ s, ({ session := some sessTok } : AuthenticationResponse).session = some s ∧
      s.sessionType = Ciba ∧
      ({ session := some sessTok } : GlideClientState).session = some s ∧
      authenticate { session := some sessTok } { provider := Ciba } trivialNet 0
        = (some (.ok { session := some s }), { session := some sessTok }, 0)) :=
  ⟨authenticate_session_reuse_amended.1 { session := some sessTok } sessTok
      { provider := Ciba } trivialNet 0 rfl (by decide),
   authenticate_session_reuse_amended.2 {} { provider := Ciba } happyNet 1
      { session := some sessTok } { session := some sessTok } 2 rfl rfl rfl
      { provider := Ciba } trivialNet 0 (by decide)⟩

/-- Counterexample to C1 as stated: the code orders `Ciba = 0` strictly
below `ThreeLeggedOAuth2 = 1`, the reverse of the claimed ordering of
backchannel at least redirect; a client holding a backchannel session that
is asked for the redirect grant does not get the cached session back; it
gets a successful response carrying no session at all. -/
theorem authenticate_claimed_order_cex :
    Ciba < ThreeLeggedOAuth2 ∧
    authRespSession (authenticate { session := some sessTok }
        { provider := ThreeLeggedOAuth2 } trivialNet 1).1 = some none := by
  exact ⟨by decide, rfl⟩
